import Mathlib

/-!
Shallow embedding of `class_concepts.py` (a pedagogical script of OOP
vignettes) and proofs of the specification claims about it.

Python integers are modelled as `Int`, Python numbers fed to the exact
arithmetic of the temperature vignette as `Rat`, Python strings as
`String`, raised exceptions as `Except`, and console / file side effects
as explicit effect traces.
-/

/-! ### Vignette 1: `Student` (using `self`) -/

structure Student where
  name : String
  marks : Int
deriving DecidableEq

/-- Embeds `Student.display`, which returns the f-string
`"Student: {self.name}, Marks: {self.marks}"`. -/
def Student.display (s : Student) : String :=
  "Student: " ++ s.name ++ ", Marks: " ++ toString s.marks

/-- Substring containment: `sub` occurs contiguously inside `s`
(the meaning of Python's `in` on strings). -/
def strContains (s sub : String) : Prop :=
  List.IsInfix sub.data s.data

/-! ### Vignette 2: the first `Counter` class (using `cls`)

The class keeps a class-level variable `count`, incremented by `__init__`
via `Counter.count += 1`, and `get_count` returns it. The class-level
state is the single integer, threaded explicitly. -/

def CounterFirst.countInit : Int := 0

/-- Embeds the first `Counter.__init__`: `Counter.count += 1`. -/
def CounterFirst.init (count : Int) : Int := count + 1

/-- Embeds the first `Counter.get_count`: returns `cls.count`. -/
def CounterFirst.get_count (count : Int) : Int := count

/-! ### Vignette 19: the second `Counter` class (callable with memory)

Defined later in the same module with the same name, so the module-level
name `Counter` refers to this class when `main` runs. -/

structure CounterSecond where
  count : Int
  values : List Int
deriving DecidableEq

/-- Embeds the second `Counter.__init__`: instance fields `count = 0`,
`values = []`. -/
def CounterSecond.initInstance : CounterSecond := ⟨0, []⟩

/-- Embeds the second `Counter.__call__`. -/
def CounterSecond.call (c : CounterSecond) (value : Option Int) :
    Int × CounterSecond :=
  let vs := match value with
    | some v => c.values ++ [v]
    | none => c.values
  (c.count + 1, ⟨c.count + 1, vs⟩)

/-- The two module-level `class Counter` statements, in source order. -/
inductive CounterDef
  | first
  | second
deriving DecidableEq

/-- Attribute names each `Counter` class definition exposes. -/
def CounterDef.methods : CounterDef → List String
  | .first => ["__init__", "get_count"]
  | .second => ["__init__", "__call__", "get_values", "reset"]

/-- In Python, the later `class Counter` statement (line 628) rebinds the
module-level name `Counter`, shadowing the first (line 30). This is the
class `main` sees. -/
def moduleCounter : CounterDef := CounterDef.second

inductive PyError
  | attributeError (msg : String)
deriving DecidableEq

/-- Embeds the counting demo of `main` (lines 749-753): construct three
instances of the class currently bound to the name `Counter`, then call
`Counter.get_count()`. Attribute lookup of `get_count` on the bound class
succeeds only for the first definition; on the second it raises
`AttributeError`. -/
def mainCountingDemo : Except PyError Int :=
  match moduleCounter with
  | .first =>
      .ok (CounterFirst.get_count
        (CounterFirst.init (CounterFirst.init
          (CounterFirst.init CounterFirst.countInit))))
  | .second =>
      .error (.attributeError "type object Counter has no attribute get_count")

/-! ### Vignette 12: `TemperatureConverter` (static methods)

The claims speak of the exact arithmetic `(c * 9/5) + 32` and
`(f - 32) * 5/9`, modelled over `Rat`. -/

/-- Embeds `TemperatureConverter.celsius_to_fahrenheit`. -/
def TemperatureConverter.celsius_to_fahrenheit (c : Rat) : Rat :=
  (c * 9 / 5) + 32

/-- Embeds `TemperatureConverter.fahrenheit_to_celsius`. -/
def TemperatureConverter.fahrenheit_to_celsius (f : Rat) : Rat :=
  (f - 32) * 5 / 9

/-! ### Vignette 20: `InvalidAgeError` and `check_age` -/

structure InvalidAgeError where
  age : Int
  message : String
deriving DecidableEq

/-- Embeds `InvalidAgeError(age)` with the default message
`"Age must be 18 or older"`. -/
def InvalidAgeError.make (age : Int) : InvalidAgeError :=
  ⟨age, "Age must be 18 or older"⟩

/-- Embeds `InvalidAgeError.__str__`: the f-string
`"{self.message} (got {self.age})"`. -/
def InvalidAgeError.toStr (e : InvalidAgeError) : String :=
  e.message ++ " (got " ++ toString e.age ++ ")"

/-- Embeds `check_age`: raises `InvalidAgeError(age)` when `age < 18`,
otherwise returns `True`. -/
def check_age (age : Int) : Except InvalidAgeError Bool :=
  if age < 18 then .error (InvalidAgeError.make age) else .ok true

/-! ## Claims -/

/-- C1: the counting vignette is meant to show that three constructions
starting from count 0 yield a shared count of 3 via `get_count` — and the
first `Counter` class does behave that way — but in the actual module the
name `Counter` is rebound to the second class definition, which has no
`get_count` attribute and no class-level count, so the demo in `main`
raises `AttributeError` instead of returning 3. -/
theorem counting_demo_attribute_error :
    mainCountingDemo =
      .error (.attributeError "type object Counter has no attribute get_count")
    ∧ CounterFirst.get_count
        (CounterFirst.init (CounterFirst.init
          (CounterFirst.init CounterFirst.countInit))) = 3
    ∧ ("get_count" ∈ CounterDef.methods moduleCounter) = False := by
  refine ⟨rfl, rfl, ?_⟩
  simp [moduleCounter, CounterDef.methods]

/-- C4: `celsius_to_fahrenheit` applied to 0 degrees Celsius returns 32. -/
theorem celsius_to_fahrenheit_zero :
    TemperatureConverter.celsius_to_fahrenheit 0 = 32 := by
  norm_num [TemperatureConverter.celsius_to_fahrenheit]

/-- C10: the two temperature conversions are mutually inverse as an
identity of the exact arithmetic. -/
theorem temperature_conversions_inverse :
    (∀ c : Rat, TemperatureConverter.fahrenheit_to_celsius
        (TemperatureConverter.celsius_to_fahrenheit c) = c)
    ∧ (∀ f : Rat, TemperatureConverter.celsius_to_fahrenheit
        (TemperatureConverter.fahrenheit_to_celsius f) = f) := by
  constructor <;> intro x <;>
    simp only [TemperatureConverter.celsius_to_fahrenheit,
      TemperatureConverter.fahrenheit_to_celsius] <;> ring

/-- C5: for every name and marks value, `Student(name, marks).display()`
contains both field values verbatim. -/
theorem student_display_contains_fields (s : Student) :
    strContains s.display s.name ∧ strContains s.display (toString s.marks) := by
  constructor
  · exact ⟨"Student: ".data, (", Marks: " ++ toString s.marks).data, by
      simp [Student.display, String.data_append, List.append_assoc]⟩
  · exact ⟨("Student: " ++ s.name ++ ", Marks: ").data, [], by
      simp [Student.display, String.data_append, List.append_assoc]⟩

/-- C2: `check_age age` raises `InvalidAgeError` exactly when `age < 18`,
returns `True` exactly when `age ≥ 18`, and the raised exception carries
the offending age, its string form containing both the message and the
age. -/
theorem check_age_spec (age : Int) :
    (age < 18 ↔ check_age age = .error (InvalidAgeError.make age))
    ∧ (18 ≤ age ↔ check_age age = .ok true)
    ∧ (InvalidAgeError.make age).age = age
    ∧ strContains (InvalidAgeError.make age).toStr
        (InvalidAgeError.make age).message
    ∧ strContains (InvalidAgeError.make age).toStr (toString age) := by
  refine ⟨?_, ?_, rfl, ?_, ?_⟩
  · constructor
    · intro h; simp [check_age, h]
    · intro h
      by_contra hc
      simp [check_age, hc] at h
  · constructor
    · intro h; simp [check_age, not_lt.mpr h]
    · intro h
      by_contra hc
      push_neg at hc
      simp [check_age, hc] at h
  · exact ⟨[], " (got " ++ toString age ++ ")" |>.data, by
      simp [InvalidAgeError.toStr, InvalidAgeError.make, String.data_append,
        List.append_assoc]⟩
  · exact ⟨("Age must be 18 or older" ++ " (got ").data, ")".data, by
      simp [InvalidAgeError.toStr, InvalidAgeError.make, String.data_append,
        List.append_assoc]⟩

/-- Witness for C2 at the concrete ages 15 and 21. -/
theorem check_age_spec_witness :
    check_age 15 = .error (InvalidAgeError.make 15)
    ∧ check_age 21 = .ok true :=
  ⟨(check_age_spec 15).1.mp (by norm_num),
   (check_age_spec 21).2.1.mp (by norm_num)⟩

/-! ### Vignette 17: the `singleton` decorator and `DatabaseConnection`

The decorator keeps a cache (`instances`); the wrapped constructor creates
the instance on the first call and returns the cached one on every later
call, ignoring the later arguments. The cache for the one decorated class
is modelled as `Option DatabaseConnection`. -/

structure DBArgs where
  host : String
  user : String
  password : String
deriving DecidableEq

structure DatabaseConnection where
  host : String
  user : String
  password : String
deriving DecidableEq

/-- Embeds `DatabaseConnection.__init__`. -/
def DatabaseConnection.initConn (a : DBArgs) : DatabaseConnection :=
  ⟨a.host, a.user, a.password⟩

/-- Embeds `get_instance`, the function returned by `singleton`:
if the class is not yet in `instances`, construct and cache; then return
the cached instance. -/
def get_instance (st : Option DatabaseConnection) (a : DBArgs) :
    DatabaseConnection × Option DatabaseConnection :=
  match st with
  | none => let i := DatabaseConnection.initConn a; (i, some i)
  | some i => (i, some i)

/-- Runs a sequence of calls to the decorated constructor, returning the
list of returned instances and the final cache. -/
def runSingletonCalls (st : Option DatabaseConnection) :
    List DBArgs → List DatabaseConnection × Option DatabaseConnection
  | [] => ([], st)
  | a :: rest =>
      let p := get_instance st a
      let q := runSingletonCalls p.2 rest
      (p.1 :: q.1, q.2)

/-! ### Vignette 18: `Product` price property -/

structure Product where
  _price : Rat
deriving DecidableEq

/-- Embeds `Product.__init__`: `self._price = 0`. -/
def Product.initProduct : Product := ⟨0⟩

/-- Embeds the `price` getter. -/
def Product.price (p : Product) : Rat := p._price

/-- Embeds the `price` setter: a negative value only prints
`"Price cannot be negative"` and leaves `_price` unchanged; otherwise
`_price` is set to the value. Returns the updated product and the lines
printed. -/
def Product.setPrice (p : Product) (value : Rat) : Product × List String :=
  if value < 0 then (p, ["Price cannot be negative"])
  else ({ _price := value }, [])

/-! ### Effects: console and file side effects

Side effects of the vignettes are modelled as explicit traces. The
vocabulary covers prints, the file operations Python offers, and sleeping;
the source only ever prints, opens/writes/closes `log.txt`, and sleeps. -/

inductive Effect
  | print (s : String)
  | fileOpen (name mode : String)
  | fileWrite (name content : String)
  | fileClose (name : String)
  | fileDelete (name : String)
  | sleep (seconds : Nat)
deriving DecidableEq

def Effect.isPrint : Effect → Bool
  | .print _ => true
  | _ => false

def Effect.isDelete : Effect → Bool
  | .fileDelete _ => true
  | _ => false

/-- Whether the effect is a file operation on file `f`. -/
def Effect.isFileOpOn (e : Effect) (f : String) : Bool :=
  match e with
  | .fileOpen n _ => n = f
  | .fileWrite n _ => n = f
  | .fileClose n => n = f
  | .fileDelete n => n = f
  | _ => false

/-! ### Vignette 6: `Logger` (constructor and destructor) -/

/-- Effects of `Logger.__init__`: print, then
`open("log.txt", "a")`. -/
def Logger.initEffects : List Effect :=
  [.print "Logger object created", .fileOpen "log.txt" "a"]

/-- Effects of `Logger.log(message)`: write `message + "\n"`. -/
def Logger.logEffects (message : String) : List Effect :=
  [.fileWrite "log.txt" (message ++ "\n")]

/-- Effects of `Logger.destroy()`: close the file, then print.
(`log_file` is always set, so the `hasattr` guard passes.) -/
def Logger.destroyEffects : List Effect :=
  [.fileClose "log.txt", .print "Logger object destroyed"]

/-- The full trace of the `Logger` vignette's operations: construct,
log one message, explicit cleanup. -/
def Logger.lifecycleEffects (message : String) : List Effect :=
  Logger.initEffects ++ Logger.logEffects message ++ Logger.destroyEffects

/-- Effects of the `Logger` portion of `main` (lines 772-775): two
prints, `Logger()`, `logger.destroy()`. -/
def mainLoggerDemoEffects : List Effect :=
  [.print "\n6. Constructors and Destructors", .print "Creating logger..."]
    ++ Logger.initEffects ++ Logger.destroyEffects

/-- The set of files existing on disk, as a list of names. Opening in a
creating mode (anything but read mode `"r"`) creates the file if absent;
deleting removes it; writes and closes do not change which files exist. -/
def applyEffect (fs : List String) : Effect → List String
  | .fileOpen n mode => if mode = "r" then fs else if n ∈ fs then fs else n :: fs
  | .fileDelete n => fs.erase n
  | _ => fs

def applyTrace (fs : List String) (es : List Effect) : List String :=
  es.foldl applyEffect fs

/-! ## Claims (continued) -/

/-- C3: the singleton-decorated constructor caches a single instance:
for every sequence of calls starting from an empty cache, every call
returns the instance built from the first call's arguments, and the cache
finally holds exactly that instance, so its fields remain those of the
first call. -/
theorem singleton_caches_single_instance (a : DBArgs) (rest : List DBArgs) :
    (∀ i ∈ (runSingletonCalls none (a :: rest)).1,
        i = DatabaseConnection.initConn a)
    ∧ (runSingletonCalls none (a :: rest)).2 =
        some (DatabaseConnection.initConn a) := by
  have key : ∀ (l : List DBArgs) (c : DatabaseConnection),
      runSingletonCalls (some c) l = (List.replicate l.length c, some c) := by
    intro l
    induction l with
    | nil => intro c; simp [runSingletonCalls]
    | cons b bs ih =>
        intro c
        simp [runSingletonCalls, get_instance, ih c, List.replicate]
  have h1 : runSingletonCalls none (a :: rest) =
      (DatabaseConnection.initConn a ::
        List.replicate rest.length (DatabaseConnection.initConn a),
       some (DatabaseConnection.initConn a)) := by
    simp [runSingletonCalls, get_instance, key rest]
  constructor
  · intro i hi
    rw [h1] at hi
    rcases List.mem_cons.mp hi with h | h
    · exact h
    · exact List.eq_of_mem_replicate h
  · rw [h1]

/-- Witness for C3: two calls with different arguments both return the
first instance, and the cache keeps the first call's fields. -/
theorem singleton_caches_single_instance_witness :
    (runSingletonCalls none
        [⟨"localhost", "admin", "pw"⟩, ⟨"other", "u", "p"⟩]).2 =
      some (DatabaseConnection.initConn ⟨"localhost", "admin", "pw"⟩)
    ∧ (DatabaseConnection.initConn ⟨"other", "u", "p"⟩ ∈
        (runSingletonCalls none
          [⟨"localhost", "admin", "pw"⟩, ⟨"other", "u", "p"⟩]).1 → False) := by
  refine ⟨(singleton_caches_single_instance ⟨"localhost", "admin", "pw"⟩
    [⟨"other", "u", "p"⟩]).2, ?_⟩
  intro hmem
  have := (singleton_caches_single_instance ⟨"localhost", "admin", "pw"⟩
    [⟨"other", "u", "p"⟩]).1 _ hmem
  simp [DatabaseConnection.initConn] at this

/-- C6: the `price` setter rejects a negative value without raising,
leaving the stored price unchanged and only printing a message, and a
non-negative value is stored. -/
theorem product_price_setter_spec (p : Product) (v : Rat) :
    (v < 0 → p.setPrice v = (p, ["Price cannot be negative"]))
    ∧ (0 ≤ v → (p.setPrice v).1.price = v ∧ (p.setPrice v).2 = []) := by
  constructor
  · intro h; simp [Product.setPrice, h]
  · intro h
    simp [Product.setPrice, not_lt.mpr h, Product.price]

/-- Witness for C6 at a negative and a non-negative price. -/
theorem product_price_setter_spec_witness :
    Product.setPrice Product.initProduct (-5) =
      (Product.initProduct, ["Price cannot be negative"])
    ∧ (Product.setPrice Product.initProduct 7).1.price = 7 :=
  ⟨(product_price_setter_spec Product.initProduct (-5)).1 (by norm_num),
   ((product_price_setter_spec Product.initProduct 7).2 (by norm_num)).1⟩

/-- C7 counterexample: the `Logger` constructor's trace contains an
effect that is not a print — it opens the log file — so printing is not
the only side effect of every vignette. -/
theorem logger_has_nonprint_effect :
    Effect.fileOpen "log.txt" "a" ∈ Logger.initEffects
    ∧ (Effect.fileOpen "log.txt" "a").isPrint = false := by
  constructor
  · simp [Logger.initEffects]
  · rfl

/-- C7 amended: every effect in the `Logger` vignette's trace
(construct, log a message, destroy) is either a console print or a file
operation on `log.txt`; there is no other kind of side effect. -/
theorem logger_effects_print_or_logfile (m : String) (e : Effect)
    (he : e ∈ Logger.lifecycleEffects m) :
    e.isPrint = true ∨ e.isFileOpOn "log.txt" = true := by
  have hl : Logger.lifecycleEffects m =
      [.print "Logger object created", .fileOpen "log.txt" "a",
       .fileWrite "log.txt" (m ++ "\n"), .fileClose "log.txt",
       .print "Logger object destroyed"] := by
    simp [Logger.lifecycleEffects, Logger.initEffects, Logger.logEffects,
      Logger.destroyEffects]
  rw [hl] at he
  simp only [List.mem_cons, List.not_mem_nil, or_false] at he
  rcases he with h | h | h | h | h <;> subst h <;>
    simp [Effect.isPrint, Effect.isFileOpOn]

/-- Witness for the amended C7 at a concrete message and effect. -/
theorem logger_effects_print_or_logfile_witness :
    (Effect.fileWrite "log.txt" ("hi" ++ "\n") ∈ Logger.lifecycleEffects "hi")
    ∧ ((Effect.fileWrite "log.txt" ("hi" ++ "\n")).isPrint = true
        ∨ (Effect.fileWrite "log.txt" ("hi" ++ "\n")).isFileOpOn "log.txt"
            = true) :=
  ⟨by simp [Logger.lifecycleEffects, Logger.initEffects, Logger.logEffects,
      Logger.destroyEffects],
   logger_effects_print_or_logfile "hi" (Effect.fileWrite "log.txt" ("hi" ++ "\n"))
    (by simp [Logger.lifecycleEffects, Logger.initEffects, Logger.logEffects,
      Logger.destroyEffects])⟩

/-- C8 counterexample: the demonstration routine never deletes the log
file, and after running its `Logger` portion on an initially empty disk
the file `log.txt` exists — persisted state does remain. -/
theorem log_file_persists_after_demo :
    mainLoggerDemoEffects.any Effect.isDelete = false
    ∧ "log.txt" ∈ applyTrace [] mainLoggerDemoEffects := by
  constructor
  · rfl
  · simp [applyTrace, mainLoggerDemoEffects, Logger.initEffects,
      Logger.destroyEffects, applyEffect]

/-- C8 amended: the log file is opened (in append mode, creating it if
absent) by the `Logger` constructor and closed by `destroy()`, but the
demonstration routine contains no delete operation, so whatever the disk
held before, `log.txt` exists after the demonstration. -/
theorem log_file_opened_closed_not_deleted :
    Effect.fileOpen "log.txt" "a" ∈ Logger.initEffects
    ∧ Effect.fileClose "log.txt" ∈ Logger.destroyEffects
    ∧ mainLoggerDemoEffects.any Effect.isDelete = false
    ∧ ∀ fs : List String, "log.txt" ∈ applyTrace fs mainLoggerDemoEffects := by
  refine ⟨by simp [Logger.initEffects], by simp [Logger.destroyEffects],
    rfl, ?_⟩
  intro fs
  have htr : applyTrace fs mainLoggerDemoEffects =
      if "log.txt" ∈ fs then fs else "log.txt" :: fs := by
    simp [applyTrace, mainLoggerDemoEffects, Logger.initEffects,
      Logger.destroyEffects, applyEffect]
  rw [htr]
  by_cases hm : "log.txt" ∈ fs
  · rw [if_pos hm]; exact hm
  · rw [if_neg hm]; exact List.mem_cons_self _ _

/-! ### Vignette 21: `CustomRange` and `CustomRangeIterator`

`__next__` yields the current value and advances by `step` while
`(step > 0 and current < stop) or (step < 0 and current > stop)`,
then raises `StopIteration`. The sequence an iterator produces is
computed with explicit fuel; `CustomRangeIterator.fuel` is an upper
bound on the number of values yielded (each yield moves `current`
towards `stop` by at least one), and `crListAux_stable` below shows any
fuel beyond the bound computes the same list, i.e. the fuel never
truncates the iteration. -/

structure CustomRange where
  start : Int
  stop : Int
  step : Int
deriving DecidableEq

structure CustomRangeIterator where
  current : Int
  stop : Int
  step : Int
deriving DecidableEq

/-- Embeds `CustomRange.__iter__`: returns
`CustomRangeIterator(self.start, self.stop, self.step)`. -/
def CustomRange.iter (r : CustomRange) : CustomRangeIterator :=
  ⟨r.start, r.stop, r.step⟩

/-- Embeds `CustomRangeIterator.__next__`: `some (value, advanced state)`
on a yield, `none` for `StopIteration`. -/
def CustomRangeIterator.next (s : CustomRangeIterator) :
    Option (Int × CustomRangeIterator) :=
  if (s.step > 0 ∧ s.current < s.stop) ∨ (s.step < 0 ∧ s.current > s.stop) then
    some (s.current, ⟨s.current + s.step, s.stop, s.step⟩)
  else none

/-- Upper bound on the number of values the iterator still yields. -/
def CustomRangeIterator.fuel (s : CustomRangeIterator) : Nat :=
  if s.step > 0 then (s.stop - s.current).toNat else (s.current - s.stop).toNat

/-- Each yield strictly decreases the fuel. -/
theorem CustomRangeIterator.fuel_decreases (s : CustomRangeIterator)
    (p : Int × CustomRangeIterator) (h : s.next = some p) :
    p.2.fuel < s.fuel := by
  unfold CustomRangeIterator.next at h
  split at h
  · next hc =>
      cases h
      rcases hc with ⟨h1, h2⟩ | ⟨h1, h2⟩ <;>
        simp only [CustomRangeIterator.fuel] <;> [rw [if_pos h1, if_pos h1];
          rw [if_neg (by omega), if_neg (by omega)]] <;> omega
  · exact absurd h (by simp)

/-- Runs the iterator, collecting the yielded values, with fuel. -/
def crListAux : Nat → CustomRangeIterator → List Int
  | 0, _ => []
  | Nat.succ n, s =>
      match s.next with
      | none => []
      | some p => p.1 :: crListAux n p.2

/-- The list of values the iterator yields until `StopIteration`. -/
def CustomRangeIterator.toList (s : CustomRangeIterator) : List Int :=
  crListAux (s.fuel + 1) s

/-- The values iterating `CustomRange` yields (a `for` loop over it). -/
def CustomRange.elements (r : CustomRange) : List Int :=
  r.iter.toList

/-- Any fuel above the bound computes the same list: the fuel in
`CustomRangeIterator.toList` never cuts the iteration short. -/
theorem crListAux_stable :
    ∀ (n : Nat) (s : CustomRangeIterator), s.fuel < n →
      crListAux n s = s.toList := by
  intro n
  induction n using Nat.strong_induction_on with
  | _ n ih =>
    match n with
    | 0 => exact fun s hs => absurd hs (by omega)
    | Nat.succ n =>
      intro s hs
      cases hnext : s.next with
      | none =>
          have h1 : crListAux (n + 1) s = [] := by
            simp [crListAux, hnext]
          have h2 : s.toList = [] := by
            simp [CustomRangeIterator.toList, crListAux, hnext]
          rw [h1, h2]
      | some p =>
          have hlt := CustomRangeIterator.fuel_decreases s p hnext
          have h1 : crListAux (n + 1) s = p.1 :: crListAux n p.2 := by
            simp [crListAux, hnext]
          have h2 : s.toList = p.1 :: crListAux s.fuel p.2 := by
            simp [CustomRangeIterator.toList, crListAux, hnext]
          rw [h1, h2, ih n (by omega) p.2 (by omega)]
          by_cases hz : p.2.fuel + 1 = s.fuel
          · rw [← hz]
            rfl
          · rw [ih s.fuel (by omega) p.2 (by omega)]

/-- Modelled from the claim's description of Python's builtin
`range(start, stop, step)` (builtin, not part of the repository):
starting at `start` and advancing by `step` while the current value is
below `stop` for positive step, or above `stop` for negative step, then
stopping; fueled like `crListAux`. -/
def rangeSpecAux : Nat → Int → Int → Int → List Int
  | 0, _, _, _ => []
  | Nat.succ n, start, stop, step =>
      if 0 < step then
        (if start < stop then start :: rangeSpecAux n (start + step) stop step
         else [])
      else if step < 0 then
        (if stop < start then start :: rangeSpecAux n (start + step) stop step
         else [])
      else []

/-- The sequence of Python's builtin `range(start, stop, step)`, as the
claim describes it. -/
def rangeSpec (start stop step : Int) : List Int :=
  rangeSpecAux (CustomRangeIterator.fuel ⟨start, stop, step⟩ + 1) start stop step

/-- At equal fuel the iterator's run and the described `range` sequence
agree, state by state. -/
theorem crListAux_eq_rangeSpecAux :
    ∀ (n : Nat) (s : CustomRangeIterator),
      crListAux n s = rangeSpecAux n s.current s.stop s.step := by
  intro n
  induction n with
  | zero => intro s; rfl
  | succ n ih =>
    intro s
    simp only [crListAux, rangeSpecAux, CustomRangeIterator.next]
    by_cases h1 : 0 < s.step
    · by_cases h2 : s.current < s.stop
      · rw [if_pos (Or.inl ⟨h1, h2⟩), if_pos h1, if_pos h2]
        exact congrArg (List.cons s.current)
          (ih ⟨s.current + s.step, s.stop, s.step⟩)
      · rw [if_neg (by omega), if_pos h1, if_neg h2]
    · by_cases h3 : s.step < 0
      · by_cases h2 : s.stop < s.current
        · rw [if_pos (Or.inr ⟨h3, h2⟩), if_neg h1, if_pos h3, if_pos h2]
          exact congrArg (List.cons s.current)
            (ih ⟨s.current + s.step, s.stop, s.step⟩)
        · rw [if_neg (by omega), if_neg h1, if_pos h3, if_neg h2]
      · rw [if_neg (by omega), if_neg h1, if_neg h3]

/-- C9: for nonzero step, iterating `CustomRange(start, stop, step)`
yields exactly the sequence of Python's builtin `range(start, stop, step)`
as the claim describes it. -/
theorem customRange_matches_builtin_range (start stop step : Int)
    (_hstep : step ≠ 0) :
    (CustomRange.mk start stop step).elements = rangeSpec start stop step :=
  crListAux_eq_rangeSpecAux _ ⟨start, stop, step⟩

/-- Witness for C9 at `CustomRange(0, 5, 2)`. -/
theorem customRange_matches_builtin_range_witness :
    (2 : Int) ≠ 0
    ∧ (CustomRange.mk 0 5 2).elements = rangeSpec 0 5 2
    ∧ (CustomRange.mk 0 5 2).elements = [0, 2, 4] :=
  ⟨by decide, customRange_matches_builtin_range 0 5 2 (by decide), by decide⟩
